import Mathlib

/-!
Shallow embedding of the configuration resolution and template-compilation
pipeline of `cargo-compete` (`src/config.rs`).

Conventions of the embedding:

* TOML documents are modelled by the inductive `Toml` (string, boolean,
  integer, array, table).  The text-to-tree TOML parser is the external
  `toml` crate and is out of scope (spec §1); all functions of this file
  operate on the parsed tree, mirroring the serde-driven code of
  `src/config.rs`.
* The external collaborators (the file-system read primitive and the
  `toml_edit` string parser used through `FromStr`) are passed explicitly
  as the `Ext` structure, following spec §6 which specifies them only at
  their interface boundary.
* `liquid` templates are modelled by `LiquidTemplate`: a sequence of
  literal pieces and `\x7b\x7b variable | filters \x7d\x7d` interpolations.
  Parsing checks every filter name against the registered filter set
  (the stdlib names, plus `kebabcase` for the parser built by
  `liquid_template_with_custom_filter`), as the real `liquid` crate
  rejects unknown filters at parse time.
* serde semantics: derived structs without `deny_unknown_fields` ignore
  unrecognized keys; untagged enums try their variants in declaration
  order and take the first success; internally tagged enums select the
  variant by the tag field.  Fallible operations return `Except String`.
-/

namespace CargoCompete

/-- A parsed TOML value (the in-memory tree the `toml` crate produces). -/
inductive Toml where
  | str (s : String)
  | bool (b : Bool)
  | int (n : Int)
  | array (vs : List Toml)
  | table (kvs : List (String × Toml))

/-- Key lookup in a TOML table (first match wins, as in a map). -/
def tlookup : List (String × Toml) → String → Option Toml
  | [], _ => none
  | (k, v) :: rest, key => if k = key then some v else tlookup rest key

/-- Remove a key from a table; models `#[serde(flatten)]` passing the
remaining entries on after the tag has been consumed. -/
def eraseKey (kvs : List (String × Toml)) (key : String) : List (String × Toml) :=
  kvs.filter fun kv => kv.1 ≠ key

/-- `String::deserialize`: succeeds exactly on TOML strings. -/
def getStr : Toml → Except String String
  | .str s => .ok s
  | _ => .error "invalid type: expected a string"

/-- A required struct field, as serde derives it: missing key fails. -/
def reqFieldWith (kvs : List (String × Toml)) (key : String)
    (f : Toml → Except String α) : Except String α :=
  match tlookup kvs key with
  | some v => f v
  | none => .error ("missing field `" ++ key ++ "`")

/-- An `Option` struct field: absent key yields `none`, a present value
must deserialize. -/
def optFieldWith (kvs : List (String × Toml)) (key : String)
    (f : Toml → Except String α) : Except String (Option α) :=
  match tlookup kvs key with
  | some v => (f v).map some
  | none => .ok none

/-- An optional string field. -/
def optStrField (kvs : List (String × Toml)) (key : String) :
    Except String (Option String) :=
  optFieldWith kvs key getStr

/-! ## The `heck` kebab-case transform (used by the `kebabcase` filter) -/

/-- Characters that belong to a word for the kebab-case split. -/
def isWordChar (c : Char) : Bool := c.isAlpha || c.isDigit

/-- Word splitter of `heck`'s kebab-case: non-alphanumeric characters
separate words, and a camel-case boundary (lower→upper, or an upper run
followed by a lowercase) starts a new word.  `cur` is the current word,
reversed. -/
def kebabWordsAux : List Char → List Char → List (List Char) → List (List Char)
  | [], cur, acc =>
    (if cur.isEmpty then acc else cur.reverse :: acc).reverse
  | c :: rest, cur, acc =>
    if !isWordChar c then
      kebabWordsAux rest [] (if cur.isEmpty then acc else cur.reverse :: acc)
    else if c.isUpper &&
        (match cur with | p :: _ => p.isLower | [] => false) then
      kebabWordsAux rest [c] (cur.reverse :: acc)
    else if c.isUpper &&
        (match cur with | p :: _ => p.isUpper | [] => false) &&
        (match rest with | n :: _ => n.isLower | [] => false) then
      kebabWordsAux rest [c] (cur.reverse :: acc)
    else
      kebabWordsAux rest (c :: cur) acc

/-- `heck::KebabCase::to_kebab_case`: lowercased words joined by `-`. -/
def toKebabCase (s : String) : String :=
  String.intercalate "-"
    ((kebabWordsAux s.data [] []).map fun w => String.mk (w.map Char.toLower))

/-! ## The liquid template model -/

/-- One interpolation: a variable followed by a pipeline of filters. -/
structure LiquidExpr where
  var : String
  filters : List String
  deriving DecidableEq, Repr

/-- A template element: a literal piece or an interpolation. -/
inductive LiquidElem where
  | lit (s : String)
  | expr (e : LiquidExpr)
  deriving DecidableEq, Repr

/-- A compiled template: the opaque, immutable `liquid::Template` value. -/
structure LiquidTemplate where
  elems : List LiquidElem
  deriving DecidableEq, Repr

/-- The filter names of `liquid`'s stdlib (`ParserBuilder::with_stdlib`). -/
def stdFilterNames : List String :=
  ["abs", "append", "at_least", "at_most", "capitalize", "ceil", "compact",
   "concat", "date", "default", "divided_by", "downcase", "escape",
   "escape_once", "first", "floor", "join", "last", "lstrip", "map",
   "minus", "modulo", "newline_to_br", "plus", "prepend", "remove",
   "remove_first", "replace", "replace_first", "reverse", "round",
   "rstrip", "size", "slice", "sort", "sort_natural", "split", "strip",
   "strip_html", "strip_newlines", "times", "truncate", "truncatewords",
   "uniq", "upcase", "url_decode", "url_encode", "where"]

/-- Is `f` a registered filter?  `custom` is true for the parser that also
registers the `kebabcase` filter. -/
def knownFilter (custom : Bool) (f : String) : Bool :=
  stdFilterNames.contains f || (custom && f == "kebabcase")

/-- Valid characters of a liquid variable name. -/
def isIdentChar (c : Char) : Bool := c.isAlpha || c.isDigit || c = '_'

/-- Split a character list at every `|` (the filter pipeline separator). -/
def splitOnPipe : List Char → List (List Char)
  | [] => [[]]
  | '|' :: rest => [] :: splitOnPipe rest
  | c :: rest =>
    match splitOnPipe rest with
    | [] => [[c]]
    | w :: ws => (c :: w) :: ws

/-- Whitespace for trimming inside an object. -/
def isSpaceChar (c : Char) : Bool := c = ' ' || c = '\t' || c = '\n' || c = '\r'

/-- Trim whitespace from both ends of a character list. -/
def trimChars (l : List Char) : List Char :=
  ((l.dropWhile isSpaceChar).reverse.dropWhile isSpaceChar).reverse

/-- Parse the inside of a `\x7b\x7b ... \x7d\x7d` object: a variable name
followed by `|`-separated filters, each of which must be registered. -/
def parseObject (custom : Bool) (content : List Char) : Except String LiquidExpr :=
  match (splitOnPipe content).map fun w => String.mk (trimChars w) with
  | [] => .error "template syntax error: empty object"
  | v :: fs =>
    if v.isEmpty || !v.data.all isIdentChar then
      .error ("template syntax error: invalid variable `" ++ v ++ "`")
    else
      (fs.mapM fun f =>
        if knownFilter custom f then Except.ok f
        else Except.error ("template syntax error: unknown filter `" ++ f ++ "`")).map
        fun filters => { var := v, filters }

/-- Split a character stream at the first closing `\x7d\x7d`; `none` when
the object is never closed. -/
def splitClose : List Char → Option (List Char × List Char)
  | [] => none
  | '\x7d' :: '\x7d' :: rest => some ([], rest)
  | c :: rest => (splitClose rest).map fun pr => (c :: pr.1, pr.2)

/-- Fuel-indexed scanner of a template: literal characters, interrupted by
`\x7b\x7b ... \x7d\x7d` objects.  The fuel is an upper bound on the number
of characters; `parseLiquid` supplies enough for it never to run out. -/
def scanTemplate (custom : Bool) : Nat → List Char → Except String (List LiquidElem)
  | 0, _ => .error "template syntax error: fuel exhausted"
  | _ + 1, [] => .ok []
  | fuel + 1, '\x7b' :: '\x7b' :: rest =>
    match splitClose rest with
    | none => .error "template syntax error: unclosed object"
    | some (inner, rest') =>
      (parseObject custom inner).bind fun e =>
        (scanTemplate custom fuel rest').map fun es => .expr e :: es
  | fuel + 1, c :: rest =>
    (scanTemplate custom fuel rest).map fun es => .lit (String.mk [c]) :: es

/-- Compile a template string: `liquid::Parser::parse`.  With
`custom = true` this is the parser of
`liquid_template_with_custom_filter`; with `custom = false` the plain
`ParserBuilder::with_stdlib()` parser. -/
def parseLiquid (custom : Bool) (s : String) : Except String LiquidTemplate :=
  (scanTemplate custom (s.length + 1) s.data).map fun es => ⟨es⟩

/-- Evaluate one filter application.  Only `kebabcase` (the custom filter
registered in `src/config.rs`) is given semantics here; no claim renders a
stdlib filter. -/
def applyFilter (f : String) (s : String) : String :=
  if f = "kebabcase" then toKebabCase s else s

/-- Run a filter pipeline. -/
def applyFilters (fs : List String) (s : String) : String :=
  fs.foldl (fun acc f => applyFilter f acc) s

/-- Context lookup for rendering. -/
def slookup : List (String × String) → String → Option String
  | [], _ => none
  | (k, v) :: rest, key => if k = key then some v else slookup rest key

/-- Render one element; an undefined variable is a rendering error,
matching the strict default of the `liquid` crate. -/
def renderElem (ctx : List (String × String)) : LiquidElem → Except String String
  | .lit s => .ok s
  | .expr e =>
    match slookup ctx e.var with
    | some v => .ok (applyFilters e.filters v)
    | none => .error ("liquid: undefined variable `" ++ e.var ++ "`")

/-- Render a list of elements and concatenate. -/
def renderElems (ctx : List (String × String)) : List LiquidElem → Except String String
  | [] => .ok ""
  | e :: es =>
    (renderElem ctx e).bind fun s =>
      (renderElems ctx es).map fun r => s ++ r

/-- `liquid::Template::render` against a flat name-to-value context. -/
def LiquidTemplate.render (t : LiquidTemplate) (ctx : List (String × String)) :
    Except String String :=
  renderElems ctx t.elems

/-- `liquid_template_with_custom_filter` (`src/config.rs:692`): the parser
with the stdlib and the additional `kebabcase` filter. -/
def liquid_template_with_custom_filter (text : String) : Except String LiquidTemplate :=
  parseLiquid true text

/-- `deserialize_liquid_template` (`src/config.rs:651`): a string field
compiled by the stdlib-only parser. -/
def deserialize_liquid_template (v : Toml) : Except String LiquidTemplate :=
  (getStr v).bind fun s => parseLiquid false s

/-- `deserialize_liquid_templates` (`src/config.rs:664`): a string-array
field, each entry compiled by the stdlib-only parser. -/
def deserialize_liquid_templates (v : Toml) : Except String (List LiquidTemplate) :=
  match v with
  | .array vs =>
    (vs.mapM getStr).bind fun ss => ss.mapM (parseLiquid false)
  | _ => .error "invalid type: expected an array"

/-- `deserialize_liquid_template_with_custom_filter` (`src/config.rs:681`). -/
def deserialize_liquid_template_with_custom_filter (v : Toml) :
    Except String LiquidTemplate :=
  (getStr v).bind fun s => liquid_template_with_custom_filter s

/-! ## External collaborators (spec §6), passed at the interface boundary -/

/-- A `toml_edit::Document`: a table of items.  `Document::new()` is `[]`. -/
abbrev TomlEditDoc := List (String × Toml)

/-- The external collaborators of the pipeline: the file-system read
primitive (`crate::fs::read_to_string`) and the `toml_edit` string parser
(`str::parse::<toml_edit::Document>`), both excluded from the core by
spec §1 and specified only at their interface boundary. -/
structure Ext where
  readFile : String → Except String String
  parseTomlEdit : String → Except String TomlEditDoc

/-! ## The configuration data model (spec §3) -/

/-- `snowchains_core::web::PlatformKind` (external, trivial enum). -/
inductive PlatformKind where
  | atcoder
  | codeforces
  | yukicoder
  deriving DecidableEq, Repr

def PlatformKind.toKebabCaseStr : PlatformKind → String
  | .atcoder => "atcoder"
  | .codeforces => "codeforces"
  | .yukicoder => "yukicoder"

/-- The kebab-cased platform vocabulary of
`deserialize_platform_kind_in_kebab_case` (`src/config.rs:363`): matched
case-exactly, no folding. -/
def platformFromKebab (s : String) : Option PlatformKind :=
  if s = "atcoder" then some .atcoder
  else if s = "codeforces" then some .codeforces
  else if s = "yukicoder" then some .yukicoder
  else none

def deserialize_platform_kind_in_kebab_case (v : Toml) : Except String PlatformKind :=
  match v with
  | .str s =>
    match platformFromKebab s with
    | some p => .ok p
    | none => .error ("unknown variant `" ++ s ++ "`")
  | _ => .error "invalid type: expected a string"

/-- `Edition` (`src/config.rs:230`), with its strum serializations. -/
inductive Edition where
  | edition2015
  | edition2018
  | edition2021
  deriving DecidableEq, Repr

def editionFromStr (s : String) : Option Edition :=
  if s = "2015" then some .edition2015
  else if s = "2018" then some .edition2018
  else if s = "2021" then some .edition2021
  else none

/-- `CargoCompeteConfigNewTemplateDependencies` (`src/config.rs:433`):
internally tagged by `kind`. -/
inductive CargoCompeteConfigNewTemplateDependencies where
  | inline (content : String)
  | manifestFile (path : String)
  deriving DecidableEq, Repr

/-- `CargoCompeteConfigNewTemplateSrc` (`src/config.rs:440`): internally
tagged by `kind`. -/
inductive CargoCompeteConfigNewTemplateSrc where
  | inline (content : String)
  | file (path : String)
  deriving DecidableEq, Repr

/-- `CargoCompeteConfigNewTemplate` (`src/config.rs:412`). -/
structure CargoCompeteConfigNewTemplate where
  lockfile : Option String
  profile : Option TomlEditDoc
  dependencies : CargoCompeteConfigNewTemplateDependencies
  src : CargoCompeteConfigNewTemplateSrc

/-- `CargoCompeteConfigNew` (`src/config.rs:251`): the New-Project
Strategy variant set. -/
inductive CargoCompeteConfigNew where
  | none
  | cargoCompete (platform : PlatformKind) (path : LiquidTemplate)
      (template : Option CargoCompeteConfigNewTemplate)
  | ojApi (url : LiquidTemplate) (path : LiquidTemplate)
      (template : Option CargoCompeteConfigNewTemplate)

/-- `CargoCompeteConfigNew::template` (`src/config.rs:278`). -/
def CargoCompeteConfigNew.templateField :
    CargoCompeteConfigNew → Option CargoCompeteConfigNewTemplate
  | .none => Option.none
  | .cargoCompete _ _ t => t
  | .ojApi _ _ t => t

/-- `CargoCompeteConfigTemplateNew` (`src/config.rs:215`), the `new`
sub-block of the top-level `template` block; every field defaulted. -/
structure CargoCompeteConfigTemplateNew where
  edition : Option Edition
  profile : TomlEditDoc
  dependencies : TomlEditDoc
  dev_dependencies : TomlEditDoc
  copy_files : List (String × String)

/-- `CargoCompeteConfigTemplate` (`src/config.rs:208`). -/
structure CargoCompeteConfigTemplate where
  src : String
  new : Option CargoCompeteConfigTemplateNew

/-- `BinLikeTargetKind` (`src/config.rs:519`). -/
inductive BinLikeTargetKind where
  | bin
  | exampleBin
  deriving DecidableEq, Repr

/-- `CargoCompeteConfigAdd` (`src/config.rs:447`). -/
structure CargoCompeteConfigAdd where
  url : LiquidTemplate
  is_contest : Option (List String)
  target_kind : BinLikeTargetKind
  bin_name : LiquidTemplate
  bin_alias : LiquidTemplate
  bin_src_path : Option LiquidTemplate

/-- `CargoCompeteConfigTestProfile` (`src/config.rs:541`). -/
inductive CargoCompeteConfigTestProfile where
  | dev
  | release
  deriving DecidableEq, Repr

/-- `CargoCompeteConfigTest` (`src/config.rs:533`). -/
structure CargoCompeteConfigTest where
  toolchain : Option String
  profile : CargoCompeteConfigTestProfile

/-- `Default for CargoCompeteConfigTest` and its defaulted profile. -/
def CargoCompeteConfigTest.default : CargoCompeteConfigTest :=
  { toolchain := none, profile := .dev }

/-- `CargoCompeteConfigSubmitFile` (`src/config.rs:561`). -/
structure CargoCompeteConfigSubmitFile where
  path : LiquidTemplate
  language_id : Option String

/-- `CargoCompeteConfigSubmitCommand` (`src/config.rs:569`). -/
structure CargoCompeteConfigSubmitCommand where
  args : List LiquidTemplate
  language_id : Option String

/-- `CargoCompeteConfigSubmit` (`src/config.rs:554`): the Submit
Strategy variant set. -/
inductive CargoCompeteConfigSubmit where
  | file (f : CargoCompeteConfigSubmitFile)
  | command (c : CargoCompeteConfigSubmitCommand)
  | deprecatedTranspileCommand (c : CargoCompeteConfigSubmitCommand)

/-- The source text of the default submit path template. -/
def defaultSubmitPathText : String := "\x7b\x7b src_path \x7d\x7d"

/-- `impl Default for CargoCompeteConfigSubmit` (`src/config.rs:577`):
`File` with the path template compiled from `\x7b\x7b src_path \x7d\x7d`
and no language identifier.  The source unwraps the parse; the parse is
shown to succeed (`c2_submit_default`), so the `getD` fallback is inert. -/
def CargoCompeteConfigSubmit.default : CargoCompeteConfigSubmit :=
  .file
    { path := (parseLiquid false defaultSubmitPathText).toOption.getD ⟨[]⟩
      language_id := none }

/-- `CargoCompeteConfig` (`src/config.rs:119`).  `openField` models the
`open` field (a Lean keyword). -/
structure CargoCompeteConfig where
  test_suite : LiquidTemplate
  openField : Option String
  template : Option CargoCompeteConfigTemplate
  new : CargoCompeteConfigNew
  add : Option CargoCompeteConfigAdd
  test : CargoCompeteConfigTest
  submit : CargoCompeteConfigSubmit

/-! ## The variant resolvers (Document Deserializer building blocks) -/

/-- Deserializer of `CargoCompeteConfigNewTemplateDependencies`:
internally tagged by `kind` with kebab-cased variant names; unknown keys
are ignored (no `deny_unknown_fields`). -/
def deserializeNewTemplateDependencies (v : Toml) :
    Except String CargoCompeteConfigNewTemplateDependencies :=
  match v with
  | .table kvs =>
    match tlookup kvs "kind" with
    | some (.str "inline") =>
      (reqFieldWith kvs "content" getStr).map .inline
    | some (.str "manifest-file") =>
      (reqFieldWith kvs "path" getStr).map .manifestFile
    | some (.str s) => .error ("unknown variant `" ++ s ++ "`")
    | some _ => .error "invalid type for tag `kind`"
    | none => .error "missing field `kind`"
  | _ => .error "invalid type: expected a table"

/-- Deserializer of `CargoCompeteConfigNewTemplateSrc`. -/
def deserializeNewTemplateSrc (v : Toml) :
    Except String CargoCompeteConfigNewTemplateSrc :=
  match v with
  | .table kvs =>
    match tlookup kvs "kind" with
    | some (.str "inline") =>
      (reqFieldWith kvs "content" getStr).map .inline
    | some (.str "file") =>
      (reqFieldWith kvs "path" getStr).map .file
    | some (.str s) => .error ("unknown variant `" ++ s ++ "`")
    | some _ => .error "invalid type for tag `kind`"
    | none => .error "missing field `kind`"
  | _ => .error "invalid type: expected a table"

/-- Deserializer of `CargoCompeteConfigNewTemplate`: `lockfile` optional,
`profile` an optional string parsed by `toml_edit` (through
`deserialize_option_from_str`), `dependencies` and `src` required. -/
def deserializeNewTemplate (ext : Ext) (v : Toml) :
    Except String CargoCompeteConfigNewTemplate :=
  match v with
  | .table kvs =>
    (optStrField kvs "lockfile").bind fun lockfile =>
      (match tlookup kvs "profile" with
        | Option.none => Except.ok Option.none
        | some pv =>
          (getStr pv).bind fun s => (ext.parseTomlEdit s).map some).bind
        fun profile =>
          (reqFieldWith kvs "dependencies" deserializeNewTemplateDependencies).bind
            fun dependencies =>
              (reqFieldWith kvs "src" deserializeNewTemplateSrc).map fun src =>
                { lockfile, profile, dependencies, src }
  | _ => .error "invalid type: expected a table"

/-- The `CargoCompete` helper struct of
`CargoCompeteConfigNew::deserialize` (`src/config.rs:354`): the
Platform-Driven field set. -/
def deserializeCargoCompeteFields (ext : Ext) (kvs : List (String × Toml)) :
    Except String
      (PlatformKind × LiquidTemplate × Option CargoCompeteConfigNewTemplate) :=
  (reqFieldWith kvs "platform" deserialize_platform_kind_in_kebab_case).bind
    fun platform =>
      (reqFieldWith kvs "path" deserialize_liquid_template_with_custom_filter).bind
        fun path =>
          (optFieldWith kvs "template" (deserializeNewTemplate ext)).map
            fun template => (platform, path, template)

/-- `toml::Value::try_into::<CargoCompete>()`: the untagged fallback of
the New-Project Strategy. -/
def deserializeCargoCompete (ext : Ext) (v : Toml) :
    Except String
      (PlatformKind × LiquidTemplate × Option CargoCompeteConfigNewTemplate) :=
  match v with
  | .table kvs => deserializeCargoCompeteFields ext kvs
  | _ => .error "invalid type: expected a table"

/-- `CargoCompeteConfigNew::deserialize` (`src/config.rs:286`): the
untagged `WithExplicitTag` trial in declaration order — `None` (a unit
variant; no TOML value deserializes as a unit, so it never matches), then
`CargoCompete` (tag `kind = "cargo-compete"`, remaining fields flattened
into the `CargoCompete` struct), then `OjApi` (tag `kind = "oj-api"`),
and finally `Other(toml::Value)`, which matches any value and is
converted with `try_into`, surfacing that conversion's error. -/
def deserializeNew (ext : Ext) (v : Toml) : Except String CargoCompeteConfigNew :=
  let taggedCargoCompete : Except String CargoCompeteConfigNew :=
    match v with
    | .table kvs =>
      match tlookup kvs "kind" with
      | some (.str "cargo-compete") =>
        (deserializeCargoCompeteFields ext (eraseKey kvs "kind")).map
          fun r => .cargoCompete r.1 r.2.1 r.2.2
      | _ => .error "tag mismatch"
    | _ => .error "invalid type: expected a table"
  match taggedCargoCompete with
  | .ok r => .ok r
  | .error _ =>
    let taggedOjApi : Except String CargoCompeteConfigNew :=
      match v with
      | .table kvs =>
        match tlookup kvs "kind" with
        | some (.str "oj-api") =>
          (reqFieldWith kvs "url" deserialize_liquid_template_with_custom_filter).bind
            fun url =>
              (reqFieldWith kvs "path"
                  deserialize_liquid_template_with_custom_filter).bind
                fun path =>
                  (optFieldWith kvs "template" (deserializeNewTemplate ext)).map
                    fun template => .ojApi url path template
        | _ => .error "tag mismatch"
      | _ => .error "invalid type: expected a table"
    match taggedOjApi with
    | .ok r => .ok r
    | .error _ =>
      (deserializeCargoCompete ext v).map fun r => .cargoCompete r.1 r.2.1 r.2.2

/-- Deserializer of `CargoCompeteConfigTemplateNew`: every field has a
serde default — absent `profile`/`dependencies`/`dev-dependencies` are
`toml_edit::Document::new()` (the empty document), absent `copy-files`
the empty map; present documents are strings parsed by `toml_edit`. -/
def deserializeTemplateNew (ext : Ext) (v : Toml) :
    Except String CargoCompeteConfigTemplateNew :=
  match v with
  | .table kvs =>
    (match tlookup kvs "edition" with
      | Option.none => Except.ok Option.none
      | some ev =>
        (getStr ev).bind fun s =>
          match editionFromStr s with
          | some e => Except.ok (some e)
          | Option.none => Except.error ("invalid edition `" ++ s ++ "`")).bind
      fun edition =>
        (match tlookup kvs "profile" with
          | Option.none => Except.ok ([] : TomlEditDoc)
          | some pv => (getStr pv).bind ext.parseTomlEdit).bind fun profile =>
          (match tlookup kvs "dependencies" with
            | Option.none => Except.ok ([] : TomlEditDoc)
            | some dv => (getStr dv).bind ext.parseTomlEdit).bind fun dependencies =>
            (match tlookup kvs "dev-dependencies" with
              | Option.none => Except.ok ([] : TomlEditDoc)
              | some dv => (getStr dv).bind ext.parseTomlEdit).bind
              fun dev_dependencies =>
                (match tlookup kvs "copy-files" with
                  | Option.none => Except.ok ([] : List (String × String))
                  | some (.table cf) =>
                    cf.mapM fun (kv : String × Toml) =>
                      (getStr kv.2).map fun s => (kv.1, s)
                  | some _ => Except.error "invalid type: expected a table").map
                  fun copy_files =>
                    { edition, profile, dependencies, dev_dependencies, copy_files }
  | _ => .error "invalid type: expected a table"

/-- Deserializer of the top-level `template` block
(`CargoCompeteConfigTemplate`): `src` required, `new` optional. -/
def deserializeTemplate (ext : Ext) (v : Toml) :
    Except String CargoCompeteConfigTemplate :=
  match v with
  | .table kvs =>
    (reqFieldWith kvs "src" getStr).bind fun src =>
      (optFieldWith kvs "new" (deserializeTemplateNew ext)).map fun new =>
        { src, new }
  | _ => .error "invalid type: expected a table"

/-- Deserializer of `CargoCompeteConfigTest`: optional `toolchain`,
`profile` defaulting to `dev`, kebab-cased vocabulary matched exactly. -/
def deserializeTest (v : Toml) : Except String CargoCompeteConfigTest :=
  match v with
  | .table kvs =>
    (optStrField kvs "toolchain").bind fun toolchain =>
      (match tlookup kvs "profile" with
        | Option.none => Except.ok CargoCompeteConfigTestProfile.dev
        | some (.str "dev") => Except.ok .dev
        | some (.str "release") => Except.ok .release
        | some (.str s) => Except.error ("unknown variant `" ++ s ++ "`")
        | some _ => Except.error "invalid type: expected a string").map
        fun profile => { toolchain, profile }
  | _ => .error "invalid type: expected a table"

/-- `CargoCompeteConfigAdd::deserialize` (`src/config.rs:456`): the
`Repr` struct is read first (plain strings), then every template is
compiled with the stdlib-only parser, `bin_alias` defaulting to the
`bin_name` source text, parse errors surfaced via `D::Error::custom`. -/
def deserializeAdd (v : Toml) : Except String CargoCompeteConfigAdd :=
  match v with
  | .table kvs =>
    (reqFieldWith kvs "url" getStr).bind fun url =>
      (optFieldWith kvs "is-contest" fun iv =>
          match iv with
          | .array vs => vs.mapM getStr
          | _ => .error "invalid type: expected an array").bind fun is_contest =>
        (match tlookup kvs "target-kind" with
          | Option.none => Except.ok BinLikeTargetKind.bin
          | some (.str "bin") => Except.ok .bin
          | some (.str "example") => Except.ok .exampleBin
          | some (.str s) => Except.error ("unknown variant `" ++ s ++ "`")
          | some _ => Except.error "invalid type: expected a string").bind
          fun target_kind =>
            (reqFieldWith kvs "bin-name" getStr).bind fun bin_name =>
              (optStrField kvs "bin-alias").bind fun bin_alias =>
                (optStrField kvs "bin-src-path").bind fun bin_src_path =>
                  let binAliasText := bin_alias.getD bin_name
                  (parseLiquid false url).bind fun urlT =>
                    (parseLiquid false bin_name).bind fun binNameT =>
                      (parseLiquid false binAliasText).bind fun binAliasT =>
                        (match bin_src_path with
                          | Option.none => Except.ok Option.none
                          | some s => (parseLiquid false s).map some).map
                          fun binSrcPathT =>
                            { url := urlT, is_contest, target_kind
                              bin_name := binNameT, bin_alias := binAliasT
                              bin_src_path := binSrcPathT }
  | _ => .error "invalid type: expected a table"

/-- The `CurrentForm` shape of `CargoCompeteConfigSubmit::deserialize`
(`src/config.rs:618`): internally tagged by `kind`, variants `file`
(template via the stdlib-only parser) and `command` (template sequence).
The enum-level `rename_all = "kebab-case"` renames the variants only, so
the `language_id` field keeps its underscore. -/
def deserializeSubmitCurrentForm (v : Toml) : Except String CargoCompeteConfigSubmit :=
  match v with
  | .table kvs =>
    match tlookup kvs "kind" with
    | some (.str "file") =>
      (reqFieldWith kvs "path" deserialize_liquid_template).bind fun path =>
        (optStrField kvs "language_id").map fun language_id =>
          .file { path, language_id }
    | some (.str "command") =>
      (reqFieldWith kvs "args" deserialize_liquid_templates).bind fun args =>
        (optStrField kvs "language_id").map fun language_id =>
          .command { args, language_id }
    | some (.str s) => .error ("unknown variant `" ++ s ++ "`")
    | some _ => .error "invalid type for tag `kind`"
    | none => .error "missing field `kind`"
  | _ => .error "invalid type: expected a table"

/-- The `Deprecated` shape (`src/config.rs:633`): a required `transpile`
field holding the internally tagged `DeprecatedSubmit`, whose only
variant is `command` with the same `args`/`language_id` payload. -/
def deserializeSubmitDeprecated (v : Toml) : Except String CargoCompeteConfigSubmit :=
  match v with
  | .table kvs =>
    reqFieldWith kvs "transpile" fun tv =>
      match tv with
      | .table tkvs =>
        match tlookup tkvs "kind" with
        | some (.str "command") =>
          (reqFieldWith tkvs "args" deserialize_liquid_templates).bind fun args =>
            (optStrField tkvs "language_id").map fun language_id =>
              .deprecatedTranspileCommand { args, language_id }
        | some (.str s) => .error ("unknown variant `" ++ s ++ "`")
        | some _ => .error "invalid type for tag `kind`"
        | none => .error "missing field `kind`"
      | _ => .error "invalid type: expected a table"
  | _ => .error "invalid type: expected a table"

/-- `CargoCompeteConfigSubmit::deserialize` (`src/config.rs:590`): the
untagged `Repr` trial — `CurrentForm` first, then `Deprecated`; when both
fail serde reports its generic untagged-enum message. -/
def deserializeSubmit (v : Toml) : Except String CargoCompeteConfigSubmit :=
  match deserializeSubmitCurrentForm v with
  | .ok r => .ok r
  | .error _ =>
    match deserializeSubmitDeprecated v with
    | .ok r => .ok r
    | .error _ => .error "data did not match any variant of untagged enum Repr"

/-- The derived deserializer of `CargoCompeteConfig` (`src/config.rs:119`):
`test-suite` required and compiled with the custom-filter parser, `open`
an optional string, `template`/`add` optional blocks, `new`/`test`/
`submit` defaulted when absent, unknown keys ignored (collected by
`serde_ignored` in `load`, never a failure). -/
def deserializeConfig (ext : Ext) (v : Toml) : Except String CargoCompeteConfig :=
  match v with
  | .table kvs =>
    (reqFieldWith kvs "test-suite"
        deserialize_liquid_template_with_custom_filter).bind fun test_suite =>
      (optStrField kvs "open").bind fun openField =>
        (optFieldWith kvs "template" (deserializeTemplate ext)).bind fun template =>
          (match tlookup kvs "new" with
            | some nv => deserializeNew ext nv
            | Option.none => Except.ok CargoCompeteConfigNew.none).bind fun new =>
            (optFieldWith kvs "add" deserializeAdd).bind fun add =>
              (match tlookup kvs "test" with
                | some tv => deserializeTest tv
                | Option.none => Except.ok CargoCompeteConfigTest.default).bind
                fun test =>
                  (match tlookup kvs "submit" with
                    | some sv => deserializeSubmit sv
                    | Option.none =>
                      Except.ok CargoCompeteConfigSubmit.default).map fun submit =>
                    { test_suite, openField, template, new, add, test, submit }
  | _ => .error "invalid type: expected a table"

/-! ## `load` and the unused-key diagnostics (`serde_ignored`) -/

/-- The recognized top-level keys of `CargoCompeteConfig`. -/
def recognizedTopLevel : List String :=
  ["test-suite", "open", "template", "new", "add", "test", "submit"]

def templateNewKeys : List String :=
  ["edition", "profile", "dependencies", "dev-dependencies", "copy-files"]

def unusedKeysTemplateNew (kvs : List (String × Toml)) : List String :=
  ((kvs.map Prod.fst).filter fun k => !(templateNewKeys.contains k)).map
    ("template.new." ++ ·)

def unusedKeysTemplate (kvs : List (String × Toml)) : List String :=
  kvs.flatMap fun kv =>
    if kv.1 = "src" then []
    else if kv.1 = "new" then
      match kv.2 with
      | .table inner => unusedKeysTemplateNew inner
      | _ => []
    else ["template." ++ kv.1]

def unusedKeysTest (kvs : List (String × Toml)) : List String :=
  ((kvs.map Prod.fst).filter fun k => !(["toolchain", "profile"].contains k)).map
    ("test." ++ ·)

def addKeys : List String :=
  ["url", "is-contest", "target-kind", "bin-name", "bin-alias", "bin-src-path"]

def unusedKeysAdd (kvs : List (String × Toml)) : List String :=
  ((kvs.map Prod.fst).filter fun k => !(addKeys.contains k)).map ("add." ++ ·)

/-- The key paths `serde_ignored` collects: keys present in the document
but never consulted by any field accessor.  Unrecognized top-level keys
are reported by name; inside the derived sub-structs (`template`, `test`,
`add`) unrecognized keys are reported with their dotted path; the
`test-suite`, `open`, `new` and `submit` values are consumed wholesale
(the untagged resolvers buffer the entire value). -/
def unusedKeys (v : Toml) : List String :=
  match v with
  | .table kvs =>
    kvs.flatMap fun kv =>
      if kv.1 = "template" then
        match kv.2 with
        | .table inner => unusedKeysTemplate inner
        | _ => []
      else if kv.1 = "test" then
        match kv.2 with
        | .table inner => unusedKeysTest inner
        | _ => []
      else if kv.1 = "add" then
        match kv.2 with
        | .table inner => unusedKeysAdd inner
        | _ => []
      else if recognizedTopLevel.contains kv.1 then []
      else [kv.1]
  | _ => []

/-- `load` (`src/config.rs:74`), over the parsed document tree (the
text-to-tree step is the external `toml` crate): deserializes through
`serde_ignored`, then emits one warning per unused key to the warning
sink; the warnings are returned alongside the configuration. -/
def load (ext : Ext) (doc : Toml) :
    Except String (CargoCompeteConfig × List String) :=
  (deserializeConfig ext doc).map fun config =>
    (config, (unusedKeys doc).map fun k => "unused key in compete.toml: " ++ k)

/-! ## The Locator (`locate`, `src/config.rs:46`) -/

/-- The fixed configuration filename. -/
def competeTomlName : String := "compete.toml"

/-- Paths are modelled as component lists (an absolute path is the list
of its components from the root).  `Path::ancestors`: the path itself,
then each parent, down to the root. -/
def ancestors (l : List String) : List (List String) :=
  (List.range (l.length + 1)).map fun k => l.take (l.length - k)

/-- `Path::strip_prefix(".")`: drop one leading same-directory marker
component when present, otherwise keep the path unchanged. -/
def stripDotMarker (p : List String) : List String :=
  match p with
  | "." :: rest => rest
  | _ => p

/-- `Path::display` of a component-list path. -/
def displayPath (l : List String) : String := String.intercalate "/" l

/-- The not-found message of `locate`, naming the search root. -/
def locateNotFoundMsg (cwd : List String) : String :=
  "could not find `compete.toml` in `" ++ displayPath cwd ++
    "` or any parent directory. first, create one  with `cargo compete init`"

/-- `locate` (`src/config.rs:46`).  `fsExists` is the external
file-system existence probe.  An explicit path has a leading `.` marker
stripped and is joined onto the working directory, with no existence
check; otherwise the working directory and each ancestor are probed,
closest first, for `compete.toml`, and exhaustion is the not-found error.
(The final UTF-8 re-encoding check of the source is vacuous here: every
modelled path is a UTF-8 string.) -/
def locate (fsExists : List String → Bool) (cwd : List String)
    (cliOptPath : Option (List String)) : Except String (List String) :=
  match cliOptPath with
  | some p => .ok (cwd ++ stripDotMarker p)
  | none =>
    match ((ancestors cwd).map (· ++ [competeTomlName])).find? fsExists with
    | some p => .ok p
    | none => .error (locateNotFoundMsg cwd)

/-! ## The template-resolution accessor (`CargoCompeteConfig::template`) -/

/-- The deprecation warning emitted when the legacy `new.template` block
is bridged. -/
def deprecationWarningMsg : String :=
  "`new.template` is deprecated. see https://github.com/qryxip/cargo-compete#configuration"

/-- `Utf8Path::with_file_name("")`: the containing directory of a path
string. -/
def withFileName (p : String) : String :=
  String.intercalate "/" ((p.splitOn "/").dropLast)

/-- Join a directory string and a relative path string. -/
def joinPathStr (dir rel : String) : String :=
  if dir = "" then rel else dir ++ "/" ++ rel

/-- `CargoCompeteConfig::template` (`src/config.rs:138`), the
template-resolution accessor.  Returns the resolution result together
with the warnings emitted through the shell collaborator: the top-level
`template` block is preferred unchanged; otherwise a legacy
`new.template` block is bridged field by field after one deprecation
warning; otherwise the required-template error names the configuration
path. -/
def CargoCompeteConfig.resolveTemplate (ext : Ext) (cfg : CargoCompeteConfig)
    (configPath : String) :
    Except String CargoCompeteConfigTemplate × List String :=
  match cfg.template with
  | some t => (.ok t, [])
  | Option.none =>
    match cfg.new.templateField with
    | some nt =>
      let read := fun (rel : String) =>
        ext.readFile (joinPathStr (withFileName configPath) rel)
      let res : Except String CargoCompeteConfigTemplate :=
        (match nt.src with
          | .inline content => Except.ok content
          | .file path => read path).bind fun src =>
          let profile := nt.profile.getD []
          (match nt.dependencies with
            | .inline content =>
              match ext.parseTomlEdit content with
              | .ok d => Except.ok d
              | .error _ =>
                Except.error
                  "could not parse the toml value in `new.template.dependencies.content`"
            | .manifestFile path =>
              (read path).bind fun text =>
                (ext.parseTomlEdit text).bind fun root =>
                  match tlookup root "dependencies" with
                  | some (.table t) => Except.ok t
                  | some _ => Except.error "`dependencies` is not a `Table`"
                  | Option.none => Except.ok ([] : TomlEditDoc)).map
            fun dependencies =>
              let copy_files :=
                match nt.lockfile with
                | some p => [(p, "Cargo.lock")]
                | Option.none => []
              { src
                new := some
                  { edition := Option.none, profile, dependencies
                    dev_dependencies := [], copy_files } }
      (res, [deprecationWarningMsg])
    | Option.none =>
      (.error ("`template` or `new.template` is required: " ++ configPath), [])

/-! ## The Generator (`generate`, `src/config.rs:20`) -/

/-- Modelled from the spec: the embedded dependency-manifest text of the
scaffold (`resources/atcoder-deps.toml` is not under `src/`); any valid
TOML fragment stands in for it, and the round-trip theorem only assumes
the external `toml_edit` parser accepts it. -/
def atcoderDepsContent : String := "proconio = \"0.4.5\"\n"

/-- Modelled from the spec: the judge-specific Rust language identifier
(`crate::web::ATCODER_RUST_LANG_ID` is not under `src/`). -/
def atcoderRustLangId : String := "5054"

/-- The scaffold's `test-suite` template text. -/
def scaffoldTestSuiteText : String :=
  "\x7b\x7b manifest_dir \x7d\x7d/testcases/\x7b\x7b bin_alias \x7d\x7d.toml"

/-- The scaffold's template source text. -/
def scaffoldSrcText : String := "fn main() \x7b\n    todo!();\n\x7d\n"

/-- The scaffold's `new.path` template text. -/
def scaffoldNewPathText : String := "./\x7b\x7b contest \x7d\x7d"

/-- Modelled from the spec: `generate` (`src/config.rs:20`) renders the
built-in scaffold template `resources/compete.toml.liquid`, which is not
under `src/`; per §4.4/§6 its output is a configuration document with the
recognized top-level keys, the three boolean toggles selecting the
optional dependency manifest, the lockfile copy entry and the
binary-submission wording.  The external text-to-tree TOML parse of the
output is elided: the model produces the parsed document tree directly. -/
def generate (templateNewEdition : String) (templateNewDependenciesContent : Option String)
    (templateNewLockfile : Option String) (newPlatform : PlatformKind)
    (testToolchain : String) (submitViaBinary : Bool) (rustLanguageId : String) :
    Toml :=
  .table
    ([("test-suite", .str scaffoldTestSuiteText)] ++
      [("template", .table
        ([("src", .str scaffoldSrcText)] ++
          [("new", .table
            ([("edition", .str templateNewEdition)] ++
              (match templateNewDependenciesContent with
                | some c => [("dependencies", .str c)]
                | none => []) ++
              (match templateNewLockfile with
                | some l => [("copy-files", .table [(l, .str "Cargo.lock")])]
                | none => [])))]))] ++
      [("new", .table
        [("kind", .str "cargo-compete"),
         ("platform", .str newPlatform.toKebabCaseStr),
         ("path", .str scaffoldNewPathText)])] ++
      [("test", .table [("toolchain", .str testToolchain)])] ++
      [("submit",
        if submitViaBinary then
          .table
            [("kind", .str "command"),
             ("args", .array [.str "sh", .str "-c", .str "cargo build --release"]),
             ("language_id", .str rustLanguageId)]
        else
          .table
            [("kind", .str "file"),
             ("path", .str defaultSubmitPathText),
             ("language_id", .str rustLanguageId)])])

/-! ## Concrete collaborator instances used by witnesses -/

/-- A trivial collaborator instance: every file read fails, every
`toml_edit` parse yields the empty document. -/
def extTriv : Ext :=
  { readFile := fun _ => .error "io error"
    parseTomlEdit := fun _ => .ok [] }

/-- The compiled template of a source text (used to state concrete parse
results without spelling out the element lists). -/
def parsedTemplate (custom : Bool) (s : String) : LiquidTemplate :=
  (parseLiquid custom s).toOption.getD ⟨[]⟩

/-! ## Helper lemmas -/

theorem bind_ok {α β : Type} {x : Except String α} {f : α → Except String β} {c : β}
    (h : x.bind f = .ok c) : ∃ a, x = .ok a ∧ f a = .ok c := by
  cases x with
  | ok a => exact ⟨a, rfl, h⟩
  | error e => simp [Except.bind] at h

theorem map_ok {α β : Type} {x : Except String α} {g : α → β} {c : β}
    (h : x.map g = .ok c) : ∃ a, x = .ok a ∧ g a = c := by
  cases x with
  | ok a => exact ⟨a, rfl, by simpa [Except.map] using h⟩
  | error e => simp [Except.map] at h

/-- Appending a binding for a different key never changes a lookup. -/
theorem tlookup_append_ne (kvs : List (String × Toml)) (k key : String) (v : Toml)
    (h : k ≠ key) : tlookup (kvs ++ [(k, v)]) key = tlookup kvs key := by
  induction kvs with
  | nil => simp [tlookup, h]
  | cons kv rest ih => by_cases hkv : kv.1 = key <;> simp [tlookup, hkv, ih]

theorem eraseKey_append_ne (kvs : List (String × Toml)) (k key : String) (v : Toml)
    (h : k ≠ key) : eraseKey (kvs ++ [(k, v)]) key = eraseKey kvs key ++ [(k, v)] := by
  simp [eraseKey, List.filter_append, h]

/-- The Platform-Driven field set only consults its three field names. -/
theorem fields_append_ne (ext : Ext) (kvs : List (String × Toml)) (k : String) (v : Toml)
    (h1 : k ≠ "platform") (h2 : k ≠ "path") (h3 : k ≠ "template") :
    deserializeCargoCompeteFields ext (kvs ++ [(k, v)]) =
      deserializeCargoCompeteFields ext kvs := by
  simp only [deserializeCargoCompeteFields, reqFieldWith, optFieldWith,
    tlookup_append_ne _ _ _ _ h1, tlookup_append_ne _ _ _ _ h2,
    tlookup_append_ne _ _ _ _ h3]

/-- `find?` returns the first element satisfying the predicate. -/
theorem find?_first {α : Type} (p : α → Bool) (l₁ l₂ : List α) (x : α)
    (h₁ : ∀ y ∈ l₁, p y = false) (hx : p x = true) :
    (l₁ ++ x :: l₂).find? p = some x := by
  induction l₁ with
  | nil => simp [List.find?, hx]
  | cons y rest ih =>
    have hy := h₁ y (by simp)
    simp only [List.cons_append, List.find?, hy]
    exact ih fun z hz => h₁ z (by simp [hz])

/-- Concrete compilations of the scaffold's template texts (evaluated by
the kernel; `parsedTemplate` names their results). -/
theorem scaffoldTestSuiteParses :
    deserialize_liquid_template_with_custom_filter (.str scaffoldTestSuiteText) =
      .ok (parsedTemplate true scaffoldTestSuiteText) := rfl

theorem scaffoldNewPathParses :
    deserialize_liquid_template_with_custom_filter (.str scaffoldNewPathText) =
      .ok (parsedTemplate true scaffoldNewPathText) := rfl

theorem scaffoldSubmitPathParses :
    deserialize_liquid_template (.str defaultSubmitPathText) =
      .ok (parsedTemplate false defaultSubmitPathText) := rfl

theorem scaffoldSubmitArgsParse :
    deserialize_liquid_templates
        (.array [.str "sh", .str "-c", .str "cargo build --release"]) =
      .ok [parsedTemplate false "sh", parsedTemplate false "-c",
        parsedTemplate false "cargo build --release"] := rfl

/-! ## The claims -/

/-- C1: a `new` value with the explicit discriminator `kind = "oj-api"`
and `url`/`path` fields resolves to the `OjApi` variant, even when the
value also carries fields satisfying the Platform-Driven shape (the
quantification over `kvs` admits a `platform` binding); and a `new` value
with no `kind` discriminator and `platform`/`path` fields resolves to the
`CargoCompete` (Platform-Driven) variant. -/
theorem c1_new_tag_priority :
    (∀ (ext : Ext) (kvs : List (String × Toml)) (u p : String)
        (tu tp : LiquidTemplate),
      tlookup kvs "kind" = some (.str "oj-api") →
      tlookup kvs "url" = some (.str u) →
      tlookup kvs "path" = some (.str p) →
      tlookup kvs "template" = none →
      liquid_template_with_custom_filter u = .ok tu →
      liquid_template_with_custom_filter p = .ok tp →
      deserializeNew ext (.table kvs) = .ok (.ojApi tu tp none)) ∧
    (∀ (ext : Ext) (kvs : List (String × Toml)) (pl p : String)
        (pk : PlatformKind) (tp : LiquidTemplate),
      tlookup kvs "kind" = none →
      tlookup kvs "platform" = some (.str pl) →
      platformFromKebab pl = some pk →
      tlookup kvs "path" = some (.str p) →
      tlookup kvs "template" = none →
      liquid_template_with_custom_filter p = .ok tp →
      deserializeNew ext (.table kvs) = .ok (.cargoCompete pk tp none)) := by
  constructor
  · intro ext kvs u p tu tp hk hu hp ht hpu hpp
    simp [deserializeNew, hk, hu, hp, ht, reqFieldWith, optFieldWith,
      deserialize_liquid_template_with_custom_filter, getStr, hpu, hpp,
      Except.bind, Except.map]
  · intro ext kvs pl p pk tp hk hpl hpk hp ht hpp
    simp [deserializeNew, deserializeCargoCompete, deserializeCargoCompeteFields,
      hk, hpl, hpk, hp, ht, reqFieldWith, optFieldWith,
      deserialize_platform_kind_in_kebab_case,
      deserialize_liquid_template_with_custom_filter, getStr, hpp,
      Except.bind, Except.map]

/-- Witness for C1: both parts at concrete documents; the first document
also carries a `platform` field satisfying the Platform-Driven shape. -/
theorem c1_new_tag_priority_witness :
    deserializeNew extTriv (.table [("kind", .str "oj-api"), ("url", .str "u"),
        ("path", .str "p"), ("platform", .str "atcoder")]) =
      .ok (.ojApi ⟨[.lit "u"]⟩ ⟨[.lit "p"]⟩ none) ∧
    deserializeNew extTriv (.table [("platform", .str "atcoder"), ("path", .str "p")]) =
      .ok (.cargoCompete .atcoder ⟨[.lit "p"]⟩ none) :=
  ⟨c1_new_tag_priority.1 extTriv _ "u" "p" _ _ rfl rfl rfl rfl rfl rfl,
   c1_new_tag_priority.2 extTriv _ "atcoder" "p" .atcoder _ rfl rfl rfl rfl rfl rfl⟩

/-- C2: the default submit strategy (used when the `submit` key is
structurally absent) is the `File` variant with no language identifier
whose path template, rendered against `src_path = X`, yields exactly `X`
for every string `X`; and a document without a `submit` key deserializes
to a configuration whose submit strategy is that default. -/
theorem c2_submit_default :
    parseLiquid false defaultSubmitPathText = .ok ⟨[.expr ⟨"src_path", []⟩]⟩ ∧
    CargoCompeteConfigSubmit.default = .file ⟨⟨[.expr ⟨"src_path", []⟩]⟩, none⟩ ∧
    (∀ X : String,
      LiquidTemplate.render ⟨[.expr ⟨"src_path", []⟩]⟩ [("src_path", X)] = .ok X) ∧
    (∀ (ext : Ext) (kvs : List (String × Toml)) (c : CargoCompeteConfig),
      tlookup kvs "submit" = none →
      deserializeConfig ext (.table kvs) = .ok c →
      c.submit = CargoCompeteConfigSubmit.default) := by
  refine ⟨rfl, rfl, ?_, ?_⟩
  · intro X
    simp [LiquidTemplate.render, renderElems, renderElem, slookup, applyFilters,
      Except.bind, Except.map]
  · intro ext kvs c hs hc
    simp only [deserializeConfig, hs] at hc
    obtain ⟨ts, -, hc⟩ := bind_ok hc
    obtain ⟨op, -, hc⟩ := bind_ok hc
    obtain ⟨tpl, -, hc⟩ := bind_ok hc
    obtain ⟨nw, -, hc⟩ := bind_ok hc
    obtain ⟨ad, -, hc⟩ := bind_ok hc
    obtain ⟨tst, -, hc⟩ := bind_ok hc
    obtain ⟨sub, hsub, hc⟩ := map_ok hc
    cases hsub
    subst hc
    rfl

/-- Witness for C2: the render part at `X = "X"` and the absent-key part
at a concrete document. -/
theorem c2_submit_default_witness :
    LiquidTemplate.render ⟨[.expr ⟨"src_path", []⟩]⟩ [("src_path", "X")] = .ok "X" ∧
    ({ test_suite := ⟨[.expr ⟨"bin_alias", []⟩]⟩, openField := none, template := none
       new := .none, add := none, test := CargoCompeteConfigTest.default
       submit := CargoCompeteConfigSubmit.default } : CargoCompeteConfig).submit =
      CargoCompeteConfigSubmit.default :=
  ⟨c2_submit_default.2.2.1 "X",
   c2_submit_default.2.2.2 extTriv [("test-suite", .str "\x7b\x7b bin_alias \x7d\x7d")]
     _ rfl rfl⟩

/-- C3: the template-resolution accessor prefers a present top-level
`template` block unchanged with no warning; with it absent and a legacy
`new.template` present it emits exactly the one deprecation warning and
(shown for the inline variants) returns the field-by-field translation;
with neither it fails with the required-template error naming the
configuration path. -/
theorem c3_template_resolution :
    (∀ (ext : Ext) (cfg : CargoCompeteConfig) (path : String)
        (t : CargoCompeteConfigTemplate),
      cfg.template = some t → cfg.resolveTemplate ext path = (.ok t, [])) ∧
    (∀ (ext : Ext) (cfg : CargoCompeteConfig) (path : String)
        (nt : CargoCompeteConfigNewTemplate),
      cfg.template = none → cfg.new.templateField = some nt →
      (cfg.resolveTemplate ext path).2 = [deprecationWarningMsg]) ∧
    (∀ (ext : Ext) (cfg : CargoCompeteConfig) (path : String)
        (lockfile : Option String) (profile : Option TomlEditDoc)
        (content srcContent : String) (deps : TomlEditDoc),
      cfg.template = none →
      cfg.new.templateField =
        some ⟨lockfile, profile, .inline content, .inline srcContent⟩ →
      ext.parseTomlEdit content = .ok deps →
      (cfg.resolveTemplate ext path).1 = .ok
        { src := srcContent
          new := some
            { edition := none, profile := profile.getD [], dependencies := deps
              dev_dependencies := []
              copy_files := match lockfile with
                | some p => [(p, "Cargo.lock")]
                | none => [] } }) ∧
    (∀ (ext : Ext) (cfg : CargoCompeteConfig) (path : String),
      cfg.template = none → cfg.new.templateField = none →
      cfg.resolveTemplate ext path =
        (.error ("`template` or `new.template` is required: " ++ path), [])) := by
  refine ⟨?_, ?_, ?_, ?_⟩
  · intro ext cfg path t h
    simp [CargoCompeteConfig.resolveTemplate, h]
  · intro ext cfg path nt h1 h2
    simp [CargoCompeteConfig.resolveTemplate, h1, h2]
  · intro ext cfg path lockfile profile content srcContent deps h1 h2 h3
    cases lockfile <;>
      simp [CargoCompeteConfig.resolveTemplate, h1, h2, h3, Except.bind, Except.map]
  · intro ext cfg path h1 h2
    simp [CargoCompeteConfig.resolveTemplate, h1, h2]

/-- Witness for C3: the three resolution outcomes at concrete
configurations. -/
theorem c3_template_resolution_witness :
    (CargoCompeteConfig.resolveTemplate extTriv
      { test_suite := ⟨[]⟩, openField := none, template := some ⟨"s", none⟩
        new := .none, add := none, test := CargoCompeteConfigTest.default
        submit := CargoCompeteConfigSubmit.default } "compete.toml" =
      (.ok ⟨"s", none⟩, [])) ∧
    ((CargoCompeteConfig.resolveTemplate extTriv
      { test_suite := ⟨[]⟩, openField := none, template := none
        new := .cargoCompete .atcoder ⟨[]⟩
          (some ⟨none, none, .inline "dep", .inline "src"⟩)
        add := none, test := CargoCompeteConfigTest.default
        submit := CargoCompeteConfigSubmit.default } "compete.toml").2 =
      [deprecationWarningMsg]) ∧
    (CargoCompeteConfig.resolveTemplate extTriv
      { test_suite := ⟨[]⟩, openField := none, template := none
        new := .none, add := none, test := CargoCompeteConfigTest.default
        submit := CargoCompeteConfigSubmit.default } "compete.toml" =
      (.error ("`template` or `new.template` is required: " ++ "compete.toml"), [])) :=
  ⟨c3_template_resolution.1 extTriv _ "compete.toml" ⟨"s", none⟩ rfl,
   c3_template_resolution.2.1 extTriv _ "compete.toml"
     ⟨none, none, .inline "dep", .inline "src"⟩ rfl rfl,
   c3_template_resolution.2.2.2 extTriv _ "compete.toml" rfl rfl⟩

/-- C4: an unrecognized top-level key never alters deserialization (so
the value of every recognized key is unaffected and the load never fails
because of it); a successful load reports exactly the `serde_ignored` key
set as warnings; and the concrete one-recognized-plus-one-unrecognized
document loads with exactly one warning naming the unrecognized key and
the same configuration as without it. -/
theorem c4_unused_key_reporting :
    (∀ (ext : Ext) (kvs : List (String × Toml)) (k : String) (v : Toml),
      recognizedTopLevel.contains k = false →
      deserializeConfig ext (.table (kvs ++ [(k, v)])) =
        deserializeConfig ext (.table kvs)) ∧
    (∀ (ext : Ext) (kvs : List (String × Toml)) (c : CargoCompeteConfig),
      deserializeConfig ext (.table kvs) = .ok c →
      load ext (.table kvs) =
        .ok (c, (unusedKeys (.table kvs)).map
          fun k => "unused key in compete.toml: " ++ k)) ∧
    load extTriv (.table [("test-suite", .str "\x7b\x7b bin_alias \x7d\x7d"),
        ("unknown-key", .str "x")]) =
      .ok ({ test_suite := ⟨[.expr ⟨"bin_alias", []⟩]⟩, openField := none
             template := none, new := .none, add := none
             test := CargoCompeteConfigTest.default
             submit := CargoCompeteConfigSubmit.default },
           ["unused key in compete.toml: unknown-key"]) ∧
    load extTriv (.table [("test-suite", .str "\x7b\x7b bin_alias \x7d\x7d")]) =
      .ok ({ test_suite := ⟨[.expr ⟨"bin_alias", []⟩]⟩, openField := none
             template := none, new := .none, add := none
             test := CargoCompeteConfigTest.default
             submit := CargoCompeteConfigSubmit.default }, []) := by
  refine ⟨?_, ?_, rfl, rfl⟩
  · intro ext kvs k v h
    simp only [recognizedTopLevel, List.contains_cons, List.elem_cons, List.elem_nil,
      Bool.or_eq_false_iff, beq_eq_false_iff_ne, ne_eq] at h
    obtain ⟨h1, h2, h3, h4, h5, h6, h7, -⟩ := h
    simp only [deserializeConfig, reqFieldWith, optFieldWith, optStrField,
      tlookup_append_ne _ _ _ _ h1, tlookup_append_ne _ _ _ _ h2,
      tlookup_append_ne _ _ _ _ h3, tlookup_append_ne _ _ _ _ h4,
      tlookup_append_ne _ _ _ _ h5, tlookup_append_ne _ _ _ _ h6,
      tlookup_append_ne _ _ _ _ h7]
  · intro ext kvs c hc
    simp [load, hc, Except.map]

/-- Witness for C4: the invariance part and the load-equation part at a
concrete document. -/
theorem c4_unused_key_reporting_witness :
    deserializeConfig extTriv
        (.table ([("test-suite", .str "\x7b\x7b bin_alias \x7d\x7d")] ++
          [("unknown-key", .str "x")])) =
      deserializeConfig extTriv
        (.table [("test-suite", .str "\x7b\x7b bin_alias \x7d\x7d")]) ∧
    load extTriv (.table [("test-suite", .str "\x7b\x7b bin_alias \x7d\x7d")]) =
      .ok ({ test_suite := ⟨[.expr ⟨"bin_alias", []⟩]⟩, openField := none
             template := none, new := .none, add := none
             test := CargoCompeteConfigTest.default
             submit := CargoCompeteConfigSubmit.default },
           (unusedKeys (.table [("test-suite", .str "\x7b\x7b bin_alias \x7d\x7d")])).map
             fun k => "unused key in compete.toml: " ++ k) :=
  ⟨c4_unused_key_reporting.1 extTriv _ "unknown-key" (.str "x") rfl,
   c4_unused_key_reporting.2.1 extTriv _ _ rfl⟩

/-- C5: the deprecated nested `submit.transpile.command` shape resolves
to `DeprecatedTranspileCommand` with exactly the same compiled argument
templates and language identifier as the current-form tagged
`kind = "command"` block resolves to `Command`; the two differ only in
the variant tag. -/
theorem c5_submit_transpile_bridge :
    ∀ (args : List String) (L : Option String) (ts : List LiquidTemplate),
      deserialize_liquid_templates (.array (args.map .str)) = .ok ts →
      deserializeSubmit (.table [("transpile", .table
          ([("kind", .str "command"), ("args", .array (args.map .str))] ++
            (match L with | some l => [("language_id", .str l)] | none => [])))]) =
        .ok (.deprecatedTranspileCommand ⟨ts, L⟩) ∧
      deserializeSubmit (.table
          ([("kind", .str "command"), ("args", .array (args.map .str))] ++
            (match L with | some l => [("language_id", .str l)] | none => []))) =
        .ok (.command ⟨ts, L⟩) := by
  intro args L ts h
  cases L <;>
    simp [deserializeSubmit, deserializeSubmitCurrentForm, deserializeSubmitDeprecated,
      reqFieldWith, optFieldWith, optStrField, tlookup, getStr, h,
      Except.bind, Except.map]

/-- Witness for C5: one argument and a concrete language identifier. -/
theorem c5_submit_transpile_bridge_witness :
    deserializeSubmit (.table [("transpile", .table
        ([("kind", .str "command"), ("args", .array (["a"].map .str))] ++
          [("language_id", .str "L")]))]) =
      .ok (.deprecatedTranspileCommand ⟨[⟨[.lit "a"]⟩], some "L"⟩) ∧
    deserializeSubmit (.table
        ([("kind", .str "command"), ("args", .array (["a"].map .str))] ++
          [("language_id", .str "L")])) =
      .ok (.command ⟨[⟨[.lit "a"]⟩], some "L"⟩) :=
  c5_submit_transpile_bridge ["a"] (some "L") [⟨[.lit "a"]⟩] rfl

/-- C6: the locator resolves an explicit path by stripping a leading
same-directory marker and joining onto the working directory with no
existence check (the result is independent of the probe); without an
explicit path it probes the working directory first (the ancestor list
starts with it) and returns the first ancestor, closest first, containing
`compete.toml`; when no ancestor contains it, it fails with the not-found
error, whose text names the search root. -/
theorem c6_locate :
    (∀ (fsExists : List String → Bool) (cwd p : List String),
      locate fsExists cwd (some p) = .ok (cwd ++ stripDotMarker p)) ∧
    (∀ cwd : List String, (ancestors cwd).head? = some cwd) ∧
    (∀ (fsExists : List String → Bool) (cwd : List String)
        (l₁ l₂ : List (List String)) (a : List String),
      ancestors cwd = l₁ ++ a :: l₂ →
      (∀ b ∈ l₁, fsExists (b ++ [competeTomlName]) = false) →
      fsExists (a ++ [competeTomlName]) = true →
      locate fsExists cwd none = .ok (a ++ [competeTomlName])) ∧
    (∀ (fsExists : List String → Bool) (cwd : List String),
      (∀ a ∈ ancestors cwd, fsExists (a ++ [competeTomlName]) = false) →
      locate fsExists cwd none = .error (locateNotFoundMsg cwd)) ∧
    (∀ cwd : List String,
      locateNotFoundMsg cwd = "could not find `compete.toml` in `" ++
        displayPath cwd ++
        "` or any parent directory. first, create one  with `cargo compete init`") := by
  refine ⟨fun _ _ _ => rfl, ?_, ?_, ?_, fun _ => rfl⟩
  · intro cwd
    simp [ancestors, List.range_succ_eq_map]
  · intro fsExists cwd l₁ l₂ a hsplit h₁ ha
    have : ((ancestors cwd).map (· ++ [competeTomlName])).find? fsExists =
        some (a ++ [competeTomlName]) := by
      rw [hsplit, List.map_append, List.map_cons]
      refine find?_first _ _ _ _ ?_ ha
      intro y hy
      obtain ⟨b, hb, rfl⟩ := List.mem_map.mp hy
      exact h₁ b hb
    simp [locate, this]
  · intro fsExists cwd h
    have : ((ancestors cwd).map (· ++ [competeTomlName])).find? fsExists = none := by
      rw [List.find?_eq_none]
      intro x hx
      obtain ⟨a, ha, rfl⟩ := List.mem_map.mp hx
      simp [h a ha]
    simp [locate, this]

/-- Witness for C6: the first-match part finds `compete.toml` in the
parent of `a/b` when it is absent from `a/b` itself, and the not-found
part fails for a probe that never succeeds. -/
theorem c6_locate_witness :
    locate (fun q => q == ["a", "compete.toml"]) ["a", "b"] none =
      .ok (["a"] ++ [competeTomlName]) ∧
    locate (fun _ => false) ["a", "b"] none =
      .error (locateNotFoundMsg ["a", "b"]) :=
  ⟨c6_locate.2.2.1 (fun q => q == ["a", "compete.toml"]) ["a", "b"]
      [["a", "b"]] [[]] ["a"] (by decide) (by decide) (by decide),
   c6_locate.2.2.2.1 (fun _ => false) ["a", "b"] (fun a _ => rfl)⟩

/-- C7: compiling `\x7b\x7b s | kebabcase \x7d\x7d` with the
custom-filter-enabled compiler succeeds and rendering it against
`s = "FooBarBaz"` yields exactly `"foo-bar-baz"`; the `kebabcase` filter
is the pure function `toKebabCase` of its input alone. -/
theorem c7_kebabcase_filter :
    (liquid_template_with_custom_filter "\x7b\x7b s | kebabcase \x7d\x7d").map
        (fun t => t.render [("s", "FooBarBaz")]) = .ok (.ok "foo-bar-baz") ∧
    (∀ s : String, applyFilter "kebabcase" s = toKebabCase s) ∧
    toKebabCase "FooBarBaz" = "foo-bar-baz" := by
  refine ⟨rfl, ?_, rfl⟩
  intro s
  simp [applyFilter]

/-- Counterexample for C8: a `new` value with the recognized explicit
tag `kind = "oj-api"`, its full shape, and one extra field `junk` not in
the shape deserializes successfully (the extra field is silently
ignored), while the claim requires a deserialization failure. -/
theorem c8_counterexample :
    deserializeNew extTriv (.table [("kind", .str "oj-api"), ("url", .str "u"),
        ("path", .str "p"), ("junk", .str "x")]) =
      .ok (.ojApi ⟨[.lit "u"]⟩ ⟨[.lit "p"]⟩ none) := rfl

/-- C8 (amended): with an explicit recognized discriminator, the tag's
associated shape's required fields are enforced — a missing one fails the
deserialization (when no fallback shape matches either) — but fields
present beyond the shape are silently ignored and never cause a failure:
appending an unconsulted key leaves the result of either polymorphic
resolver unchanged. -/
theorem c8_explicit_tag_shape :
    (∀ (ext : Ext) (kvs : List (String × Toml)) (k : String) (v : Toml),
      (["kind", "platform", "url", "path", "template"].contains k) = false →
      deserializeNew ext (.table (kvs ++ [(k, v)])) =
        deserializeNew ext (.table kvs)) ∧
    (∀ (ext : Ext) (kvs : List (String × Toml)),
      tlookup kvs "kind" = some (.str "oj-api") →
      tlookup kvs "url" = none →
      tlookup kvs "platform" = none →
      deserializeNew ext (.table kvs) = .error "missing field `platform`") ∧
    (∀ (kvs : List (String × Toml)) (k : String) (v : Toml),
      (["kind", "path", "args", "language_id", "transpile"].contains k) = false →
      deserializeSubmit (.table (kvs ++ [(k, v)])) =
        deserializeSubmit (.table kvs)) ∧
    (∀ kvs : List (String × Toml),
      tlookup kvs "kind" = some (.str "file") →
      tlookup kvs "path" = none →
      tlookup kvs "transpile" = none →
      deserializeSubmit (.table kvs) =
        .error "data did not match any variant of untagged enum Repr") := by
  refine ⟨?_, ?_, ?_, ?_⟩
  · intro ext kvs k v h
    simp only [List.contains_cons, List.elem_cons, List.elem_nil,
      Bool.or_eq_false_iff, beq_eq_false_iff_ne, ne_eq] at h
    obtain ⟨h1, h2, h3, h4, h5, -⟩ := h
    simp only [deserializeNew, deserializeCargoCompete, reqFieldWith, optFieldWith,
      tlookup_append_ne _ _ _ _ h1, tlookup_append_ne _ _ _ _ h2,
      tlookup_append_ne _ _ _ _ h3, tlookup_append_ne _ _ _ _ h4,
      tlookup_append_ne _ _ _ _ h5,
      eraseKey_append_ne _ _ _ _ h1,
      fields_append_ne ext _ _ _ h2 h4 h5]
  · intro ext kvs hk hu hpl
    simp [deserializeNew, deserializeCargoCompete, deserializeCargoCompeteFields,
      reqFieldWith, optFieldWith, hk, hu, hpl, Except.bind, Except.map]
  · intro kvs k v h
    simp only [List.contains_cons, List.elem_cons, List.elem_nil,
      Bool.or_eq_false_iff, beq_eq_false_iff_ne, ne_eq] at h
    obtain ⟨h1, h2, h3, h4, h5, -⟩ := h
    simp only [deserializeSubmit, deserializeSubmitCurrentForm,
      deserializeSubmitDeprecated, reqFieldWith, optFieldWith, optStrField,
      tlookup_append_ne _ _ _ _ h1, tlookup_append_ne _ _ _ _ h2,
      tlookup_append_ne _ _ _ _ h3, tlookup_append_ne _ _ _ _ h4,
      tlookup_append_ne _ _ _ _ h5]
  · intro kvs hk hp ht
    simp [deserializeSubmit, deserializeSubmitCurrentForm, deserializeSubmitDeprecated,
      reqFieldWith, optFieldWith, hk, hp, ht, Except.bind, Except.map]

/-- Witness for C8 (amended): the ignored-extra-field and
missing-required-field parts at concrete documents. -/
theorem c8_explicit_tag_shape_witness :
    deserializeNew extTriv (.table ([("kind", .str "oj-api"), ("url", .str "u"),
        ("path", .str "p")] ++ [("junk", .str "x")])) =
      deserializeNew extTriv (.table [("kind", .str "oj-api"), ("url", .str "u"),
        ("path", .str "p")]) ∧
    deserializeNew extTriv (.table [("kind", .str "oj-api"), ("path", .str "p")]) =
      .error "missing field `platform`" ∧
    deserializeSubmit (.table [("kind", .str "file")]) =
      .error "data did not match any variant of untagged enum Repr" :=
  ⟨c8_explicit_tag_shape.1 extTriv _ "junk" (.str "x") rfl,
   c8_explicit_tag_shape.2.1 extTriv _ rfl rfl rfl,
   c8_explicit_tag_shape.2.2.2 _ rfl rfl rfl⟩

/-- C9: for every combination of the three boolean scaffolding toggles,
with the fixed edition `2021`, platform AtCoder, toolchain `1.70.0` and
the AtCoder Rust language identifier, the Generator's output deserializes
without error through the Document Deserializer, for every collaborator
whose `toml_edit` parser accepts the embedded dependency manifest. -/
theorem c9_generate_round_trip :
    ∀ (ext : Ext) (d : TomlEditDoc),
      ext.parseTomlEdit atcoderDepsContent = .ok d →
      ∀ b1 b2 b3 : Bool,
        (deserializeConfig ext (generate "2021"
          (if b1 then some atcoderDepsContent else none)
          (if b2 then some "./cargo-lock-template.toml" else none)
          .atcoder "1.70.0" b3 atcoderRustLangId)).isOk = true := by
  intro ext d hd b1 b2 b3
  cases b1 <;> cases b2 <;> cases b3 <;>
    simp [generate, deserializeConfig, reqFieldWith, optFieldWith, optStrField, getStr,
      tlookup, deserializeTemplate, deserializeTemplateNew, editionFromStr,
      deserializeNew, deserializeCargoCompeteFields, deserializeCargoCompete, eraseKey,
      deserialize_platform_kind_in_kebab_case, platformFromKebab, deserializeTest,
      deserializeSubmit, deserializeSubmitCurrentForm, deserializeSubmitDeprecated,
      scaffoldTestSuiteParses, scaffoldNewPathParses, scaffoldSubmitPathParses,
      scaffoldSubmitArgsParse, hd, PlatformKind.toKebabCaseStr,
      Except.bind, Except.map, List.mapM, List.mapM.loop, Except.isOk, Except.toBool]

/-- Witness for C9: the trivial collaborator accepts the dependency
manifest, and one toggle combination round-trips. -/
theorem c9_generate_round_trip_witness :
    (deserializeConfig extTriv (generate "2021"
      (if true then some atcoderDepsContent else none)
      (if true then some "./cargo-lock-template.toml" else none)
      .atcoder "1.70.0" true atcoderRustLangId)).isOk = true :=
  c9_generate_round_trip extTriv [] rfl true true true

/-- C10: the `kebabcase` filter is registered only for the custom-filter
compiler: the same template text compiles there (and is accepted for
`test-suite` and the `new` strategy's `url`/`path`), while the
stdlib-only compiler used for the `add` block's and the submit strategy's
templates rejects it with a template-compile error, so a document using
it under `add` fails to load even though the identical text is accepted
under `test-suite`. -/
theorem c10_custom_filter_scope :
    (liquid_template_with_custom_filter "\x7b\x7b s | kebabcase \x7d\x7d").isOk = true ∧
    parseLiquid false "\x7b\x7b s | kebabcase \x7d\x7d" =
      .error "template syntax error: unknown filter `kebabcase`" ∧
    (deserializeNew extTriv (.table [("kind", .str "oj-api"),
        ("url", .str "\x7b\x7b s | kebabcase \x7d\x7d"),
        ("path", .str "\x7b\x7b s | kebabcase \x7d\x7d")])).isOk = true ∧
    (deserializeSubmit (.table [("kind", .str "file"),
        ("path", .str "\x7b\x7b s | kebabcase \x7d\x7d")])).isOk = false ∧
    deserialize_liquid_templates
        (.array [.str "\x7b\x7b s | kebabcase \x7d\x7d"]) =
      .error "template syntax error: unknown filter `kebabcase`" ∧
    deserializeAdd (.table [("url", .str "\x7b\x7b s | kebabcase \x7d\x7d"),
        ("bin-name", .str "a")]) =
      .error "template syntax error: unknown filter `kebabcase`" ∧
    (deserializeConfig extTriv (.table [("test-suite",
        .str "\x7b\x7b s | kebabcase \x7d\x7d")])).isOk = true ∧
    (load extTriv (.table [("test-suite", .str "\x7b\x7b s | kebabcase \x7d\x7d"),
        ("add", .table [("url", .str "\x7b\x7b s | kebabcase \x7d\x7d"),
          ("bin-name", .str "a")])])).isOk = false :=
  ⟨rfl, rfl, rfl, rfl, rfl, rfl, rfl, rfl⟩

end CargoCompete
